import Mathlib

set_option maxHeartbeats 1000000
set_option maxRecDepth 8192

/-!
Verification model of streamlink's HLS playlist parsing module
(`src/streamlink/stream/hls_playlist.py`).

Python strings are modeled as Lean `String` / `List Char` (ASCII fragment of
the Unicode semantics, which is all the format uses), Python `float` values as
exact rationals (the module only ever builds floats from decimal literals),
Python exceptions as `Except String`, and the global `log.warning` side channel
as an explicit list of warning strings threaded through the parser state.
-/

namespace HLS

/-- ASCII model of Python whitespace: the set matched by `str.strip()` and by
the regex class `\s` (the source only ever feeds it ASCII playlist text). -/
def isSpaceC (c : Char) : Bool :=
  c == ' ' || c == '\t' || c == '\n' || c == '\r' || c == '\x0b' || c == '\x0c'

/-- Characters of the `_attr_re` key class `[A-Z0-9\-]`. -/
def isKeyC (c : Char) : Bool :=
  (decide ('A' ≤ c) && decide (c ≤ 'Z')) || c.isDigit || c == '-'

/-- Characters of the `_tag_re` tag class `[\w-]` (ASCII `\w` plus dash). -/
def isTagC (c : Char) : Bool :=
  c.isAlphanum || c == '_' || c == '-'

/-- Hexadecimal digits `[0-9A-Fa-f]`. -/
def isHexC (c : Char) : Bool :=
  c.isDigit || (decide ('a' ≤ c) && decide (c ≤ 'f')) || (decide ('A' ≤ c) && decide (c ≤ 'F'))

/-- Model of Python `str.strip()` (ASCII whitespace). -/
def pyStrip (cs : List Char) : List Char :=
  ((cs.dropWhile isSpaceC).reverse.dropWhile isSpaceC).reverse

/-- Value of a decimal digit string (used where the source calls `int()` on a
string that a regex has already constrained to `\d+`). -/
def natOfDigits (ds : List Char) : Nat :=
  ds.foldl (fun n c => n * 10 + (c.toNat - 48)) 0

/-- Exact rational value of the decimal literal `ip.fp` (how the source's
`float()` calls on regex-matched `\d+(\.\d+)?` text are modeled). -/
def decimalRat (ip fp : List Char) : Rat :=
  (natOfDigits ip : Rat) + (natOfDigits fp : Rat) / ((10 : Rat) ^ fp.length)

/-- Model of Python's `int(string)` builtin: optional surrounding whitespace,
optional sign, then one or more decimal digits; anything else raises
`ValueError`. (Numeric-grouping underscores and non-ASCII digits are outside
the model; the playlist format never produces them.) -/
def pyInt (s : String) : Except String Int :=
  let core : List Char → Option Int := fun ds =>
    if ds ≠ [] ∧ ds.all Char.isDigit then some (natOfDigits ds) else none
  let r : Option Int :=
    match pyStrip s.data with
    | '-' :: ds => (core ds).map (fun n => -n)
    | '+' :: ds => core ds
    | ds => core ds
  match r with
  | some n => pure n
  | none => .error ("invalid literal for int() with base 10: " ++ s)

/-- Model of Python's `float(string)` builtin restricted to finite decimal
literals with optional exponent (the `inf`/`nan` spellings and grouping
underscores are outside the model; the sources feeding it are attribute
values and tag values of that shape). Malformed input raises `ValueError`. -/
def pyFloat (s : String) : Except String Rat :=
  let cs0 := pyStrip s.data
  let (sign, cs) : Rat × List Char :=
    match cs0 with
    | '-' :: r => (-1, r)
    | '+' :: r => (1, r)
    | r => (1, r)
  let ip := cs.takeWhile Char.isDigit
  let cs1 := cs.drop ip.length
  let (fp, cs2) : List Char × List Char :=
    match cs1 with
    | '.' :: r => (r.takeWhile Char.isDigit, r.drop (r.takeWhile Char.isDigit).length)
    | r => ([], r)
  let bad : Except String Rat := .error ("could not convert string to float: " ++ s)
  if ip = [] ∧ fp = [] then bad
  else
    let mant := sign * decimalRat ip fp
    match cs2 with
    | [] => pure mant
    | e :: r =>
      if e = 'e' ∨ e = 'E' then
        let (esign, r1) : Int × List Char :=
          match r with
          | '-' :: t => (-1, t)
          | '+' :: t => (1, t)
          | t => (1, t)
        let ed := r1.takeWhile Char.isDigit
        if ed = [] ∨ r1.drop ed.length ≠ [] then bad
        else pure (mant * (10 : Rat) ^ (esign * (natOfDigits ed : Int)))
      else bad

/-- Fueled floor of the base-10 logarithm (fuel is always sufficient when it is
at least the argument, since the argument shrinks by a factor of 10 each
step). Models `int(math.log10(n))` for `n ≥ 1`, where the float truncation
coincides with the integer floor. -/
def log10Go : Nat → Nat → Nat
  | 0, _ => 0
  | fuel + 1, n => if n < 10 then 0 else log10Go fuel (n / 10) + 1

/-- Model of `int(math.log10(n))` including the `ValueError: math domain error`
raised for a non-positive argument. -/
def pyLog10Int (n : Int) : Except String Int :=
  if n ≤ 0 then .error "math domain error"
  else pure (log10Go n.toNat n.toNat : Int)

/-- Round `n / d` to the nearest integer, ties to even (`d > 0`). -/
def roundHalfEvenNat (n d : Nat) : Nat :=
  let q := n / d
  let r := n % d
  if 2 * r < d then q
  else if 2 * r > d then q + 1
  else if q % 2 = 0 then q else q + 1

/-- Model of Python's `round(int, ndigits)` primitive on integers: with a
non-negative `ndigits` the value is returned unchanged; with a negative one it
is rounded to the nearest multiple of `10 ^ (-ndigits)`, ties to the even
multiple (banker's rounding, symmetric for negative values). -/
def pyRound (n : Int) (ndigits : Int) : Int :=
  if 0 ≤ ndigits then n
  else
    let d : Nat := 10 ^ (-ndigits).toNat
    if 0 ≤ n then ((roundHalfEvenNat n.toNat d * d : Nat) : Int)
    else -((roundHalfEvenNat (-n).toNat d * d : Nat) : Int)

/-- Attribute mappings: a Python `dict[str, str]` as an insertion-ordered
association list with unique keys. -/
abbrev AttrMap := List (String × String)

/-- Model of `dict.__setitem__`: overwrite in place, else append. -/
def dset (m : AttrMap) (k v : String) : AttrMap :=
  if m.any (fun p => p.1 == k) then m.map (fun p => if p.1 == k then (k, v) else p)
  else m ++ [(k, v)]

/-- Model of `dict.get(k)`. -/
def dget (m : AttrMap) (k : String) : Option String :=
  (m.find? (fun p => p.1 == k)).map (fun p => p.2)

/-- Model of `dict.get(k, default)`. -/
def dgetD (m : AttrMap) (k d : String) : String :=
  (dget m k).getD d

/-- Model of `dict.pop(k, default)`: the looked-up value and the mapping with
the key removed. -/
def dpop (m : AttrMap) (k : String) : Option String × AttrMap :=
  (dget m k, m.filter (fun p => p.1 != k))

/-!
Exact functional model of the `_attr_re` regular expression

    (?P<key>[A-Z0-9\-]+) = (?P<value> \d+ | 0[xX][0-9A-Fa-f]+ | -?\d+\.\d+
        | "(?P<quoted>[^\r\n"]*)" | [^",\s]+ | \d+x\d+ ) \s*(?:,\s*|$)

matched by Python's backtracking engine anchored at a position. For every
piece of this particular pattern, greedy matching without backtracking is
equivalent to the backtracking semantics, because no character accepted by a
repeated class can begin the piece that follows it (for example `=` is not a
key character, and no digit can begin `\s*(?:,\s*|$)`), and `$` at the end of
input coincides with `$` before a trailing newline once `\s*` has consumed
that newline. Alternatives are tried in the source order. -/

/-- The trailing `\s*(?:,\s*|$)` of one attribute entry: returns the rest of
the input after the separator, or `none` if the entry is not followed by a
comma or the end of the input. -/
def tailMatch (cs : List Char) : Option (List Char) :=
  match cs.dropWhile isSpaceC with
  | [] => some []
  | ',' :: r2 => some (r2.dropWhile isSpaceC)
  | _ => none

/-- Value alternative `\d+` (decimal-integer). -/
def vmDecInt (cs : List Char) : Option (String × List Char) :=
  let ds := cs.takeWhile Char.isDigit
  if ds.isEmpty then none
  else (tailMatch (cs.drop ds.length)).map (fun r => (String.mk ds, r))

/-- Value alternative `0[xX][0-9A-Fa-f]+` (hexadecimal-sequence). -/
def vmHex (cs : List Char) : Option (String × List Char) :=
  match cs with
  | '0' :: x :: r =>
    if x = 'x' ∨ x = 'X' then
      let hs := r.takeWhile isHexC
      if hs.isEmpty then none
      else (tailMatch (r.drop hs.length)).map (fun t => (String.mk ('0' :: x :: hs), t))
    else none
  | _ => none

/-- The part of the signed decimal-floating-point alternative after the
optional sign: `\d+\.\d+`. -/
def vmFloatTail (sgn cs1 : List Char) : Option (String × List Char) :=
  let d1 := cs1.takeWhile Char.isDigit
  if d1.isEmpty then none
  else
    match cs1.drop d1.length with
    | '.' :: r2 =>
      let d2 := r2.takeWhile Char.isDigit
      if d2.isEmpty then none
      else (tailMatch (r2.drop d2.length)).map
        (fun t => (String.mk (sgn ++ d1 ++ '.' :: d2), t))
    | _ => none

/-- Value alternative `-?\d+\.\d+` (signed decimal-floating-point). -/
def vmFloat (cs : List Char) : Option (String × List Char) :=
  match cs with
  | '-' :: r => vmFloatTail ['-'] r
  | r => vmFloatTail [] r

/-- Characters allowed inside a quoted-string value: `[^\r\n"]`. -/
def isQChar (c : Char) : Bool :=
  !(c == '"' || c == '\r' || c == '\n')

/-- Value alternative `"(?P<quoted>[^\r\n"]*)"`; the stored value is the
content of the `quoted` group, mirroring the quote stripping at the use
site. -/
def vmQuoted (cs : List Char) : Option (String × List Char) :=
  match cs with
  | '"' :: r =>
    let q := r.takeWhile isQChar
    match r.drop q.length with
    | '"' :: r2 => (tailMatch r2).map (fun t => (String.mk q, t))
    | _ => none
  | _ => none

/-- Characters of the enumerated-string class `[^",\s]`. -/
def isEnumC (c : Char) : Bool :=
  !(c == '"' || c == ',' || isSpaceC c)

/-- Value alternative `[^",\s]+` (enumerated-string). -/
def vmEnum (cs : List Char) : Option (String × List Char) :=
  let ds := cs.takeWhile isEnumC
  if ds.isEmpty then none
  else (tailMatch (cs.drop ds.length)).map (fun t => (String.mk ds, t))

/-- Value alternative `\d+x\d+` (decimal-resolution); kept for fidelity to the
source even though every string it accepts is already accepted by the
enumerated-string alternative tried before it. -/
def vmRes (cs : List Char) : Option (String × List Char) :=
  let d1 := cs.takeWhile Char.isDigit
  if d1.isEmpty then none
  else
    match cs.drop d1.length with
    | 'x' :: r =>
      let d2 := r.takeWhile Char.isDigit
      if d2.isEmpty then none
      else (tailMatch (r.drop d2.length)).map (fun t => (String.mk (d1 ++ 'x' :: d2), t))
    | _ => none

/-- The whole value alternation of `_attr_re`, alternatives in source order. -/
def valueMatch (cs : List Char) : Option (String × List Char) :=
  vmDecInt cs <|> vmHex cs <|> vmFloat cs <|> vmQuoted cs <|> vmEnum cs <|> vmRes cs

/-- One match of `_attr_re` anchored at the given input suffix: the stored key,
the stored value (quoted group when the quoted alternative matched) and the
rest of the input after the match. -/
def attrMatch (cs : List Char) : Option (String × String × List Char) :=
  let k := cs.takeWhile isKeyC
  if k.isEmpty then none
  else
    match cs.drop k.length with
    | '=' :: r => (valueMatch r).map (fun p => (String.mk k, p.1, p.2))
    | _ => none

/-- The loop body of `M3U8Parser.parse_attributes`: repeatedly match
`_attr_re`; on the first failure discard everything accumulated, emit the
warning and stop. The fuel argument only bounds the recursion; one unit per
remaining input character is always sufficient because every match consumes at
least the key and the `=` sign (`attrMatch_some_lt` below), so the zero-fuel
branch is unreachable from `parse_attributes`. -/
def parseAttrsGo : Nat → List Char → AttrMap → AttrMap × List String
  | 0, _, res => (res, [])
  | _ + 1, [], res => (res, [])
  | fuel + 1, cs@(_ :: _), res =>
    match attrMatch cs with
    | none => ([], ["Discarded invalid attributes list"])
    | some (k, v, rest) => parseAttrsGo fuel rest (dset res k v)

/-- Model of `M3U8Parser.parse_attributes`: the resulting mapping together
with the warnings emitted while parsing. -/
def parse_attributes (value : String) : AttrMap × List String :=
  parseAttrsGo (value.data.length + 1) value.data []

/-- All-or-nothing reading of the attribute entries of a string: `some` with
the full entry list when `_attr_re` matches end to end, `none` otherwise.
This is the specification side used to state that `parse_attributes` never
returns a partial mapping. -/
def attrEntries : Nat → List Char → Option (List (String × String))
  | 0, _ => none
  | _ + 1, [] => some []
  | fuel + 1, cs@(_ :: _) =>
    match attrMatch cs with
    | none => none
    | some (k, v, rest) => (attrEntries fuel rest).map (fun es => (k, v) :: es)

/-! Data model: the `NamedTuple` records of the source. -/

/-- Timestamps come from the external isodate library, outside this
repository; following the spec ("ISO-8601 with timezone"), a successfully
parsed datetime is modeled as its validated text. -/
structure PyDateTime where
  raw : String
  deriving DecidableEq, Repr

structure Resolution where
  width : Int
  height : Int
  deriving DecidableEq, Repr

structure ExtInf where
  duration : Rat
  title : Option String
  deriving DecidableEq, Repr

structure ByteRange where
  range : Int
  offset : Option Int
  deriving DecidableEq, Repr

structure DateRange where
  id : Option String
  classname : Option String
  start_date : Option PyDateTime
  end_date : Option PyDateTime
  duration : Option Rat
  planned_duration : Option Rat
  end_on_next : Bool
  x : AttrMap
  deriving DecidableEq, Repr

structure Key where
  method : String
  uri : Option String
  iv : Option (List Nat)
  key_format : Option String
  key_format_versions : Option String
  deriving DecidableEq, Repr

structure MapTag where
  uri : String
  byterange : Option ByteRange
  deriving DecidableEq, Repr

structure Media where
  uri : Option String
  type : String
  group_id : String
  language : Option String
  name : String
  default : Bool
  autoselect : Bool
  forced : Bool
  characteristics : Option String
  deriving DecidableEq, Repr

structure Start where
  time_offset : Rat
  precise : Bool
  deriving DecidableEq, Repr

structure StreamInfo where
  bandwidth : Int
  program_id : Option String
  codecs : List String
  resolution : Option Resolution
  audio : Option String
  video : Option String
  subtitles : Option String
  deriving DecidableEq, Repr

structure IFrameStreamInfo where
  bandwidth : Int
  program_id : Option String
  codecs : List String
  resolution : Option Resolution
  video : Option String
  deriving DecidableEq, Repr

/-- The `Union[StreamInfo, IFrameStreamInfo]` stored on a `Playlist`. -/
inductive StreamInfoU where
  | variant (si : StreamInfo)
  | iframe (si : IFrameStreamInfo)
  deriving DecidableEq, Repr

structure Playlist where
  uri : String
  stream_info : StreamInfoU
  media : List Media
  is_iframe : Bool
  deriving DecidableEq, Repr

structure Segment where
  uri : String
  duration : Rat
  title : Option String
  key : Option Key
  discontinuity : Bool
  byterange : Option ByteRange
  date : Option PyDateTime
  map : Option MapTag
  deriving DecidableEq, Repr

/-- The `M3U8` document under construction (class `M3U8.__init__`). -/
structure M3U8 where
  uri : Option String := none
  is_endlist : Bool := false
  is_master : Bool := false
  allow_cache : Option Bool := none
  discontinuity_sequence : Option Int := none
  iframes_only : Option Bool := none
  media_sequence : Option Int := none
  playlist_type : Option String := none
  targetduration : Option Rat := none
  start : Option Start := none
  version : Option Int := none
  media : List Media := []
  playlists : List Playlist := []
  dateranges : List DateRange := []
  segments : List Segment := []
  deriving DecidableEq, Repr

/-- The parser's pending state (`M3U8Parser.__init__`) together with the
document and the modeled warning log. -/
structure PState where
  m3u8 : M3U8
  expect_playlist : Bool := false
  streaminf : Option AttrMap := none
  expect_segment : Bool := false
  extinf : Option ExtInf := none
  byterange : Option ByteRange := none
  discontinuity : Bool := false
  map : Option MapTag := none
  key : Option Key := none
  date : Option PyDateTime := none
  warnings : List String := []
  deriving DecidableEq, Repr

def initM3U8 (base : Option String) : M3U8 := { uri := base }

def initPState (base : Option String) : PState := { m3u8 := initM3U8 base }

/-! Scalar decoders. -/

/-- Model of `M3U8Parser.parse_bool`. -/
def parse_bool (value : String) : Bool :=
  value == "YES"

/-- Model of `M3U8Parser.parse_byterange`: the `_range_re` pattern
`(?P<range>\d+)(?:@(?P<offset>\d+))?` matched at the start of the value. -/
def parse_byterange (value : String) : Option ByteRange :=
  let cs := value.data
  let d1 := cs.takeWhile Char.isDigit
  if d1.isEmpty then none
  else
    match cs.drop d1.length with
    | '@' :: r =>
      let d2 := r.takeWhile Char.isDigit
      if d2.isEmpty then some ⟨(natOfDigits d1 : Int), none⟩
      else some ⟨(natOfDigits d1 : Int), some (natOfDigits d2 : Int)⟩
    | _ => some ⟨(natOfDigits d1 : Int), none⟩

/-- Model of `M3U8Parser.parse_extinf`: the `_extinf_re` pattern
`(?P<duration>\d+(\.\d+)?)(,(?P<title>.+))?`; no match yields
`ExtInf(0, None)`. -/
def parse_extinf (value : String) : ExtInf :=
  let cs := value.data
  let d1 := cs.takeWhile Char.isDigit
  if d1.isEmpty then ⟨0, none⟩
  else
    let r1 := cs.drop d1.length
    let (fp, r2) : List Char × List Char :=
      match r1 with
      | '.' :: r =>
        let d2 := r.takeWhile Char.isDigit
        if d2.isEmpty then ([], '.' :: r) else (d2, r.drop d2.length)
      | r => ([], r)
    let title : Option String :=
      match r2 with
      | ',' :: t =>
        let tt := t.takeWhile (fun c => c != '\n')
        if tt.isEmpty then none else some (String.mk tt)
      | _ => none
    ⟨decimalRat d1 fp, title⟩

/-- Model of `binascii.unhexlify`: pairs of hexadecimal digits to bytes,
failing on odd length or a non-hexadecimal character. -/
def unhexlify : List Char → Option (List Nat)
  | [] => some []
  | a :: b :: r =>
    if isHexC a && isHexC b then (unhexlify r).map (fun bs => hexPair a b :: bs)
    else none
  | _ :: [] => none
where
  hexVal (c : Char) : Nat :=
    if c.isDigit then c.toNat - 48
    else if decide ('a' ≤ c) then c.toNat - 87
    else c.toNat - 55
  hexPair (a b : Char) : Nat := hexVal a * 16 + hexVal b

/-- Model of `M3U8Parser.parse_hex`, warnings included: requires the `0x`/`0X`
prefix, left-pads an odd-length remainder with one zero nibble, and decodes
any failure to absent plus a warning. -/
def parse_hex (value : Option String) : Option (List Nat) × List String :=
  match value with
  | none => (none, [])
  | some v =>
    let cs := v.data
    if cs.take 2 = ['0', 'x'] ∨ cs.take 2 = ['0', 'X'] then
      let body := cs.drop 2
      let padded := if cs.length % 2 = 1 then '0' :: body else body
      match unhexlify padded with
      | some bs => (some bs, [])
      | none => (none, ["Discarded invalid hexadecimal-sequence attribute value"])
    else (none, ["Discarded invalid hexadecimal-sequence attribute value"])

/-- Modelled from the spec: the source delegates timestamp parsing to
`isodate.parse_datetime`, an external library that is not part of this
repository; the spec asks for "ISO-8601 with timezone; malformed values
decode to absent". The model accepts
`YYYY-MM-DDTHH:MM:SS[.fraction][Z|+HH:MM|-HH:MM]` and wraps the text. -/
def parse_datetime (s : String) : Option PyDateTime :=
  let nd : Nat → List Char → Option (List Char) := fun n cs =>
    if (cs.take n).length = n ∧ (cs.take n).all Char.isDigit then some (cs.drop n) else none
  let lit : Char → List Char → Option (List Char) := fun c cs =>
    match cs with
    | x :: r => if x = c then some r else none
    | [] => none
  let frac : List Char → List Char := fun cs =>
    match cs with
    | '.' :: r => if (r.takeWhile Char.isDigit).isEmpty then '.' :: r
                  else r.drop (r.takeWhile Char.isDigit).length
    | r => r
  let tz : List Char → Option (List Char) := fun cs =>
    match cs with
    | [] => some []
    | ['Z'] => some []
    | c :: r =>
      if c = '+' ∨ c = '-' then do
        let r1 ← nd 2 r
        let r2 ← lit ':' r1
        let r3 ← nd 2 r2
        if r3 = [] then some [] else none
      else none
  let chk : Option (List Char) := do
    let r1 ← nd 4 s.data
    let r2 ← lit '-' r1
    let r3 ← nd 2 r2
    let r4 ← lit '-' r3
    let r5 ← nd 2 r4
    let r6 ← lit 'T' r5
    let r7 ← nd 2 r6
    let r8 ← lit ':' r7
    let r9 ← nd 2 r8
    let r10 ← lit ':' r9
    let r11 ← nd 2 r10
    tz (frac r11)
  match chk with
  | some _ => some ⟨s⟩
  | none => none

/-- Model of `M3U8Parser.parse_iso8601`, warnings included: parse failures are
caught and decode to absent with a warning. -/
def parse_iso8601 (value : Option String) : Option PyDateTime × List String :=
  match value with
  | none => (none, [])
  | some v =>
    match parse_datetime v with
    | some d => (some d, [])
    | none => (none, ["Discarded invalid ISO8601 attribute value"])

/-- Model of `M3U8Parser.parse_timedelta`: `timedelta(seconds=float(value))`,
a span of seconds; the uncaught `float()` conversion can raise. -/
def parse_timedelta (value : Option String) : Except String (Option Rat) :=
  match value with
  | none => pure none
  | some v => do pure (some (← pyFloat v))

/-- Model of `M3U8Parser.parse_resolution`: the `_res_re` pattern
`(\d+)x(\d+)` matched at the start; no match yields `Resolution(0, 0)`. -/
def parse_resolution (value : String) : Resolution :=
  let cs := value.data
  let d1 := cs.takeWhile Char.isDigit
  if d1.isEmpty then ⟨0, 0⟩
  else
    match cs.drop d1.length with
    | 'x' :: r =>
      let d2 := r.takeWhile Char.isDigit
      if d2.isEmpty then ⟨0, 0⟩ else ⟨(natOfDigits d1 : Int), (natOfDigits d2 : Int)⟩
    | _ => ⟨0, 0⟩

/-- Model of Python `str.split(",")` (also for the empty string, which yields
a single empty field). -/
def splitCommasGo : List Char → List Char → List String
  | cur, [] => [String.mk cur.reverse]
  | cur, ',' :: r => String.mk cur.reverse :: splitCommasGo [] r
  | cur, c :: r => splitCommasGo (c :: cur) r

def splitCommas (s : String) : List String :=
  splitCommasGo [] s.data

/-- The bandwidth computation of `M3U8Parser.create_stream_info`:
`0 if not _bandwidth else round(int(_b), 1 - int(math.log10(int(_b))))`.
Note that the string `"0"` is truthy, so it reaches `math.log10(0)` and
raises the `math domain error` rather than yielding `0`. -/
def bandwidthOf (streaminf : AttrMap) : Except String Int :=
  match dget streaminf "BANDWIDTH" with
  | none => pure 0
  | some bw =>
    if bw = "" then pure 0
    else do
      let n ← pyInt bw
      let l ← pyLog10Int n
      pure (pyRound n (1 - l))

/-- The resolution computation of `create_stream_info`:
`None if not _resolution else parse_resolution(_resolution)`. -/
def resolutionOf (streaminf : AttrMap) : Option Resolution :=
  match dget streaminf "RESOLUTION" with
  | none => none
  | some r => if r = "" then none else some (parse_resolution r)

/-- The codecs computation of `create_stream_info`:
`(streaminf.get("CODECS") or "").split(",")`. -/
def codecsOf (streaminf : AttrMap) : List String :=
  splitCommas ((dget streaminf "CODECS").getD "")

/-- Model of `M3U8Parser.create_stream_info` for the default
`StreamInfo` class. -/
def create_stream_info (streaminf : AttrMap) : Except String StreamInfo := do
  let bandwidth ← bandwidthOf streaminf
  pure { bandwidth
         program_id := dget streaminf "PROGRAM-ID"
         codecs := codecsOf streaminf
         resolution := resolutionOf streaminf
         audio := dget streaminf "AUDIO"
         video := dget streaminf "VIDEO"
         subtitles := dget streaminf "SUBTITLES" }

/-- Model of `M3U8Parser.create_stream_info` when called with
`streaminfoclass=IFrameStreamInfo`. -/
def create_iframe_stream_info (streaminf : AttrMap) : Except String IFrameStreamInfo := do
  let bandwidth ← bandwidthOf streaminf
  pure { bandwidth
         program_id := dget streaminf "PROGRAM-ID"
         codecs := codecsOf streaminf
         resolution := resolutionOf streaminf
         video := dget streaminf "VIDEO" }

/-! Reference resolution. -/

/-- Modelled from the spec: `urlparse(uri).scheme` is non-empty exactly when
the text begins with a letter followed by letters, digits, `+`, `-` or `.`
up to a colon. -/
def hasScheme (u : String) : Bool :=
  let rec go : List Char → Bool
    | [] => false
    | ':' :: _ => true
    | c :: r => (c.isAlphanum || c == '+' || c == '-' || c == '.') && go r
  match u.data with
  | c :: r => c.isAlpha && go r
  | [] => false

/-- Modelled from the spec: `urljoin` (Python standard library, outside this
repository) joining a reference onto a hierarchical base — network-path
references adopt the base's scheme, absolute-path references replace the
base's path, and relative-path references replace everything after the last
slash of the base. Dot-segment normalization is not exercised by any claim
and is left out. -/
def urljoinModel (base ref : String) : String :=
  let bcs := base.data
  let scheme := bcs.takeWhile (fun c => c != ':')
  match ref.data with
  | [] => base
  | '/' :: '/' :: _ => String.mk (scheme ++ [':'] ++ ref.data)
  | '/' :: _ =>
    let afterScheme := bcs.drop (scheme.length + 1)
    let auth : List Char :=
      match afterScheme with
      | '/' :: '/' :: r => '/' :: '/' :: r.takeWhile (fun c => c != '/')
      | _ => []
    String.mk (scheme ++ [':'] ++ auth ++ ref.data)
  | _ =>
    let afterScheme := bcs.drop (scheme.length + 1)
    let auth : List Char :=
      match afterScheme with
      | '/' :: '/' :: r => '/' :: '/' :: r.takeWhile (fun c => c != '/')
      | _ => []
    let path := afterScheme.drop auth.length
    let dir := (path.reverse.dropWhile (fun c => c != '/')).reverse
    if dir.isEmpty then String.mk (scheme ++ [':'] ++ auth ++ '/' :: ref.data)
    else String.mk (scheme ++ [':'] ++ auth ++ dir ++ ref.data)

/-- Model of `M3U8Parser.uri`: absolute references pass through, otherwise a
known base resolves the reference, otherwise it passes through unchanged. -/
def resolveURI (base : Option String) (uri : String) : String :=
  if uri ≠ "" ∧ hasScheme uri then uri
  else if uri ≠ "" ∧ base.getD "" ≠ "" then urljoinModel (base.getD "") uri
  else uri

/-! Tag handlers. Python mutates `self`; the model passes the state
explicitly, and uncaught Python exceptions become `Except.error`. -/

/-- A tag handler: the raw tag value and the current state. -/
abbrev Handler := String → PState → Except String PState

/-- EXT-X-VERSION: `self.m3u8.version = int(value)` — the `int()` conversion
is not guarded and raises on non-numeric input. -/
def parse_tag_ext_x_version : Handler := fun value s => do
  let v ← pyInt value
  pure { s with m3u8 := { s.m3u8 with version := some v } }

/-- EXTINF. -/
def parse_tag_extinf : Handler := fun value s =>
  pure { s with expect_segment := true, extinf := some (parse_extinf value) }

/-- EXT-X-BYTERANGE. -/
def parse_tag_ext_x_byterange : Handler := fun value s =>
  pure { s with expect_segment := true, byterange := parse_byterange value }

/-- EXT-X-DISCONTINUITY: sets the pending discontinuity flag and clears the
pending map, touching nothing else. -/
def parse_tag_ext_x_discontinuity : Handler := fun _ s =>
  pure { s with discontinuity := true, map := none }

/-- EXT-X-KEY: a falsy METHOD discards the tag; the IV decodes through
`parse_hex` (absent plus warning on failure). -/
def parse_tag_ext_x_key : Handler := fun value s =>
  let pa := parse_attributes value
  let s := { s with warnings := s.warnings ++ pa.2 }
  match dget pa.1 "METHOD" with
  | none => pure s
  | some method =>
    if method = "" then pure s
    else
      let ph := parse_hex (dget pa.1 "IV")
      pure { s with
             warnings := s.warnings ++ ph.2
             key := some { method
                           uri := match dget pa.1 "URI" with
                                  | some u => if u ≠ "" then some (resolveURI s.m3u8.uri u) else none
                                  | none => none
                           iv := ph.1
                           key_format := dget pa.1 "KEYFORMAT"
                           key_format_versions := dget pa.1 "KEYFORMATVERSIONS" } }

/-- EXT-X-MAP: a falsy URI discards the tag. -/
def parse_tag_ext_x_map : Handler := fun value s =>
  let pa := parse_attributes value
  let s := { s with warnings := s.warnings ++ pa.2 }
  match dget pa.1 "URI" with
  | none => pure s
  | some uri =>
    if uri = "" then pure s
    else
      pure { s with map := some { uri := resolveURI s.m3u8.uri uri
                                  byterange := parse_byterange (dgetD pa.1 "BYTERANGE" "") } }

/-- EXT-X-PROGRAM-DATE-TIME. -/
def parse_tag_ext_x_program_date_time : Handler := fun value s =>
  let pi_ := parse_iso8601 (some value)
  pure { s with date := pi_.1, warnings := s.warnings ++ pi_.2 }

/-- EXT-X-DATERANGE: the recognized attributes are popped off the mapping and
the rest is kept verbatim; the two `parse_timedelta` conversions are
unguarded `float()` calls that can raise. -/
def parse_tag_ext_x_daterange : Handler := fun value s => do
  let pa := parse_attributes value
  let s := { s with warnings := s.warnings ++ pa.2 }
  let p1 := dpop pa.1 "ID"
  let p2 := dpop p1.2 "CLASS"
  let p3 := dpop p2.2 "START-DATE"
  let isd := parse_iso8601 p3.1
  let p4 := dpop p3.2 "END-DATE"
  let ied := parse_iso8601 p4.1
  let p5 := dpop p4.2 "DURATION"
  let duration ← parse_timedelta p5.1
  let p6 := dpop p5.2 "PLANNED-DURATION"
  let planned_duration ← parse_timedelta p6.1
  let p7 := dpop p6.2 "END-ON-NEXT"
  let daterange : DateRange :=
    { id := p1.1, classname := p2.1
      start_date := isd.1, end_date := ied.1
      duration, planned_duration
      end_on_next := parse_bool (p7.1.getD "NO")
      x := p7.2 }
  pure { s with warnings := s.warnings ++ isd.2 ++ ied.2
                m3u8 := { s.m3u8 with dateranges := s.m3u8.dateranges ++ [daterange] } }

/-- EXT-X-TARGETDURATION: unguarded `float()`. -/
def parse_tag_ext_x_targetduration : Handler := fun value s => do
  let v ← pyFloat value
  pure { s with m3u8 := { s.m3u8 with targetduration := some v } }

/-- EXT-X-MEDIA-SEQUENCE: unguarded `int()`. -/
def parse_tag_ext_x_media_sequence : Handler := fun value s => do
  let v ← pyInt value
  pure { s with m3u8 := { s.m3u8 with media_sequence := some v } }

/-- The discontinuity-sequence handler: registered under the misspelled tag
name `EXT-X-DISCONTINUTY-SEQUENCE` (see the registry below); unguarded
`int()`. -/
def parse_tag_ext_x_discontinuity_sequence : Handler := fun value s => do
  let v ← pyInt value
  pure { s with m3u8 := { s.m3u8 with discontinuity_sequence := some v } }

/-- EXT-X-ENDLIST. -/
def parse_tag_ext_x_endlist : Handler := fun _ s =>
  pure { s with m3u8 := { s.m3u8 with is_endlist := true } }

/-- EXT-X-PLAYLIST-TYPE. -/
def parse_tag_ext_x_playlist_type : Handler := fun value s =>
  pure { s with m3u8 := { s.m3u8 with playlist_type := some value } }

/-- EXT-X-I-FRAMES-ONLY. -/
def parse_tag_ext_x_i_frames_only : Handler := fun _ s =>
  pure { s with m3u8 := { s.m3u8 with iframes_only := some true } }

/-- EXT-X-MEDIA: a falsy TYPE, GROUP-ID or NAME discards the whole tag. -/
def parse_tag_ext_x_media : Handler := fun value s =>
  let pa := parse_attributes value
  let s := { s with warnings := s.warnings ++ pa.2 }
  let type := (dget pa.1 "TYPE").getD ""
  let uri := (dget pa.1 "URI").getD ""
  let group_id := (dget pa.1 "GROUP-ID").getD ""
  let name := (dget pa.1 "NAME").getD ""
  if type = "" ∨ group_id = "" ∨ name = "" then pure s
  else
    let media : Media :=
      { type
        uri := if uri ≠ "" then some (resolveURI s.m3u8.uri uri) else none
        group_id
        language := dget pa.1 "LANGUAGE"
        name
        default := parse_bool (dgetD pa.1 "DEFAULT" "NO")
        autoselect := parse_bool (dgetD pa.1 "AUTOSELECT" "NO")
        forced := parse_bool (dgetD pa.1 "FORCED" "NO")
        characteristics := dget pa.1 "CHARACTERISTICS" }
    pure { s with m3u8 := { s.m3u8 with media := s.m3u8.media ++ [media] } }

/-- EXT-X-STREAM-INF: stashes its attribute list and moves to the
expecting-variant state. -/
def parse_tag_ext_x_stream_inf : Handler := fun value s =>
  let pa := parse_attributes value
  pure { s with expect_playlist := true, streaminf := some pa.1
                warnings := s.warnings ++ pa.2 }

/-- EXT-X-I-FRAME-STREAM-INF: `streaminf = self._streaminf or attr` — a
truthy (non-empty) pending EXT-X-STREAM-INF attribute list takes precedence
over the tag's own attributes for the stream info; the URI always comes from
the tag's own attributes; the pending list is cleared; a falsy URI discards
the tag; the `expect_*` states are not touched. -/
def parse_tag_ext_x_i_frame_stream_inf : Handler := fun value s => do
  let pa := parse_attributes value
  let s := { s with warnings := s.warnings ++ pa.2 }
  let uri := (dget pa.1 "URI").getD ""
  let streaminf :=
    match s.streaminf with
    | some m => if m.isEmpty then pa.1 else m
    | none => pa.1
  let s := { s with streaminf := none }
  if uri = "" then pure s
  else do
    let stream_info ← create_iframe_stream_info streaminf
    let playlist : Playlist :=
      { uri := resolveURI s.m3u8.uri uri
        stream_info := .iframe stream_info
        media := []
        is_iframe := true }
    pure { s with m3u8 := { s.m3u8 with playlists := s.m3u8.playlists ++ [playlist] } }

/-- EXT-X-SESSION-DATA: registered, no effect. -/
def parse_tag_ext_x_session_data : Handler := fun _ s => pure s

/-- EXT-X-SESSION-KEY: registered, no effect. -/
def parse_tag_ext_x_session_key : Handler := fun _ s => pure s

/-- EXT-X-INDEPENDENT-SEGMENTS: registered, no effect. -/
def parse_tag_ext_x_independent_segments : Handler := fun _ s => pure s

/-- EXT-X-START: the TIME-OFFSET conversion is an unguarded `float()` (with
integer default 0 when the attribute is absent). -/
def parse_tag_ext_x_start : Handler := fun value s => do
  let pa := parse_attributes value
  let s := { s with warnings := s.warnings ++ pa.2 }
  let time_offset ←
    match dget pa.1 "TIME-OFFSET" with
    | none => pure (0 : Rat)
    | some v => pyFloat v
  pure { s with m3u8 := { s.m3u8 with
    start := some { time_offset, precise := parse_bool (dgetD pa.1 "PRECISE" "NO") } } }

/-- EXT-X-ALLOW-CACHE (removed tag, still handled). -/
def parse_tag_ext_x_allow_cache : Handler := fun value s =>
  pure { s with m3u8 := { s.m3u8 with allow_cache := some (parse_bool value) } }

/-- The `_TAGS` registry collected by `M3U8ParserMeta` from the decorated
handlers, in declaration order, keyed by the decorator's tag string — note
the misspelled `EXT-X-DISCONTINUTY-SEQUENCE` entry taken verbatim from the
source. -/
def TAGS : List (String × Handler) :=
  [("EXT-X-VERSION", parse_tag_ext_x_version),
   ("EXTINF", parse_tag_extinf),
   ("EXT-X-BYTERANGE", parse_tag_ext_x_byterange),
   ("EXT-X-DISCONTINUITY", parse_tag_ext_x_discontinuity),
   ("EXT-X-KEY", parse_tag_ext_x_key),
   ("EXT-X-MAP", parse_tag_ext_x_map),
   ("EXT-X-PROGRAM-DATE-TIME", parse_tag_ext_x_program_date_time),
   ("EXT-X-DATERANGE", parse_tag_ext_x_daterange),
   ("EXT-X-TARGETDURATION", parse_tag_ext_x_targetduration),
   ("EXT-X-MEDIA-SEQUENCE", parse_tag_ext_x_media_sequence),
   ("EXT-X-DISCONTINUTY-SEQUENCE", parse_tag_ext_x_discontinuity_sequence),
   ("EXT-X-ENDLIST", parse_tag_ext_x_endlist),
   ("EXT-X-PLAYLIST-TYPE", parse_tag_ext_x_playlist_type),
   ("EXT-X-I-FRAMES-ONLY", parse_tag_ext_x_i_frames_only),
   ("EXT-X-MEDIA", parse_tag_ext_x_media),
   ("EXT-X-STREAM-INF", parse_tag_ext_x_stream_inf),
   ("EXT-X-I-FRAME-STREAM-INF", parse_tag_ext_x_i_frame_stream_inf),
   ("EXT-X-SESSION-DATA", parse_tag_ext_x_session_data),
   ("EXT-X-SESSION-KEY", parse_tag_ext_x_session_key),
   ("EXT-X-INDEPENDENT-SEGMENTS", parse_tag_ext_x_independent_segments),
   ("EXT-X-START", parse_tag_ext_x_start),
   ("EXT-X-ALLOW-CACHE", parse_tag_ext_x_allow_cache)]

/-- Registry lookup, `tag in self._TAGS` / `self._TAGS[tag]`. -/
def findTag (tag : String) : Option (String × Handler) :=
  TAGS.find? (fun p => p.1 == tag)

/-- Model of `str.startswith`. -/
def startsL (pat cs : List Char) : Bool :=
  match pat, cs with
  | [], _ => true
  | _ :: _, [] => false
  | a :: as_, b :: bs => a == b && startsL as_ bs

def lineStarts (line pat : String) : Bool :=
  startsL pat.data line.data

/-- Model of `M3U8Parser.split_tag`: the `_tag_re` pattern
`#(?P<tag>[\w-]+)(:(?P<value>.+))?` matched at the start of the line,
returning the tag and the stripped value (`""` when the optional value group
did not participate); `none` models the Python `(None, None)` result. -/
def split_tag (line : String) : Option (String × String) :=
  match line.data with
  | '#' :: rest =>
    let tg := rest.takeWhile isTagC
    if tg.isEmpty then none
    else
      let value : List Char :=
        match rest.drop tg.length with
        | ':' :: v =>
          let vv := v.takeWhile (fun c => c != '\n')
          if vv.isEmpty then [] else vv
        | _ => []
      some (String.mk tg, String.mk (pyStrip value))
  | _ => none

/-- Model of `M3U8Parser.get_segment`: builds the segment from the pending
fields, consuming extinf, discontinuity, byterange and date while the active
key and map persist. -/
def get_segment (s : PState) (uri : String) : Segment × PState :=
  let extinf := s.extinf.getD ⟨0, none⟩
  let seg : Segment :=
    { uri
      duration := extinf.duration
      title := extinf.title
      key := s.key
      discontinuity := s.discontinuity
      byterange := s.byterange
      date := s.date
      map := s.map }
  (seg, { s with extinf := none, discontinuity := false, byterange := none, date := none })

/-- Model of `M3U8Parser.get_playlist`: consumes the pending stream-info
attributes (empty mapping when none) and builds the variant; the bandwidth
conversion inside `create_stream_info` can raise. -/
def get_playlist (s : PState) (uri : String) : Except String (Playlist × PState) := do
  let streaminf := s.streaminf.getD []
  let s := { s with streaminf := none }
  let si ← create_stream_info streaminf
  pure ({ uri, stream_info := .variant si, media := [], is_iframe := false }, s)

/-- Model of `M3U8Parser.parse_line`: directive lines dispatch through the
registry (unmatched or unknown ones are ignored); otherwise a pending
expecting-segment or expecting-variant state consumes the line as a URI; bare
lines with no pending state are ignored. -/
def parse_line (s : PState) (line : String) : Except String PState :=
  if lineStarts line "#" then
    match split_tag line with
    | none => pure s
    | some (tag, value) =>
      match findTag tag with
      | none => pure s
      | some (_, h) => h value s
  else if s.expect_segment then
    let s1 := { s with expect_segment := false }
    let gs := get_segment s1 (resolveURI s1.m3u8.uri line)
    pure { gs.2 with m3u8 := { gs.2.m3u8 with segments := gs.2.m3u8.segments ++ [gs.1] } }
  else if s.expect_playlist then do
    let s1 := { s with expect_playlist := false }
    let gp ← get_playlist s1 (resolveURI s1.m3u8.uri line)
    pure { gp.2 with m3u8 := { gp.2.m3u8 with playlists := gp.2.m3u8.playlists ++ [gp.1] } }
  else
    pure s

/-- The main line loop of `M3U8Parser.parse`. -/
def parseLines (s : PState) : List String → Except String PState
  | [] => pure s
  | l :: ls => do parseLines (← parse_line s l) ls

/-- The `getattr(playlist.stream_info, media_type, None)` accesses of the
association pass: `StreamInfo` carries audio/video/subtitles group
references, `IFrameStreamInfo` only video. -/
def getattrMedia (si : StreamInfoU) (media_type : String) : Option String :=
  match si with
  | .variant v =>
    if media_type = "audio" then v.audio
    else if media_type = "video" then v.video
    else if media_type = "subtitles" then v.subtitles
    else none
  | .iframe v =>
    if media_type = "video" then v.video else none

/-- The association pass body for one playlist: for audio, video and
subtitles in that order, a truthy group reference appends every matching
media entry in document order. -/
def assocMedia (allMedia : List Media) (p : Playlist) : Playlist :=
  { p with media :=
      ["audio", "video", "subtitles"].foldl (fun acc mt =>
        match getattrMedia p.stream_info mt with
        | some g => if g ≠ "" then acc ++ allMedia.filter (fun m => m.group_id == g) else acc
        | none => acc) p.media }

/-- The association pass over the whole document. -/
def associate (m : M3U8) : M3U8 :=
  { m with playlists := m.playlists.map (assocMedia m.media) }

/-- Everything `M3U8Parser.parse` does after the magic-header line has been
consumed: the line loop, the association pass and the `is_master` flag. -/
def parseAfterHeader (base : Option String) (rest : List String) : Except String M3U8 := do
  let s ← parseLines (initPState base) rest
  let m := associate s.m3u8
  pure { m with is_master := !m.playlists.isEmpty }

/-- Model of `M3U8Parser.parse` on an in-memory string input, the input given
as its list of lines: empty lines are filtered out, an empty stream returns
the fresh document before any header check, a first line without the
`#EXTM3U` magic raises `ValueError`, and otherwise the remaining lines are
consumed. -/
def parse (base : Option String) (lines : List String) : Except String M3U8 :=
  match lines.filter (fun l => l != "") with
  | [] => pure (initM3U8 base)
  | first :: rest =>
    if lineStarts first "#EXTM3U" then parseAfterHeader base rest
    else .error "Missing #EXTM3U header"

/-- Whether an `Except` result is an uncaught exception. -/
def isErr {α : Type} (e : Except String α) : Bool :=
  match e with
  | .error _ => true
  | .ok _ => false

/-! Supporting lemmas: every `_attr_re` match consumes at least one input
character, so the fuel supplied by `parse_attributes` never runs out. -/

theorem dropWhile_len_le (p : Char → Bool) (l : List Char) :
    (l.dropWhile p).length ≤ l.length := by
  induction l with
  | nil => simp
  | cons a as ih =>
    simp only [List.dropWhile]
    by_cases h : p a
    · simp only [h]
      have := ih
      simp only [List.length_cons]
      omega
    · simp [h]

theorem drop_len_le (n : Nat) (l : List Char) : (l.drop n).length ≤ l.length := by
  simp [List.length_drop]

theorem tailMatch_len_le {cs r : List Char} (h : tailMatch cs = some r) :
    r.length ≤ cs.length := by
  unfold tailMatch at h
  split at h
  next heq =>
    cases h
    simp
  next c r2 heq =>
    cases h
    have h1 : (',' :: r2).length ≤ cs.length := heq ▸ dropWhile_len_le _ _
    have h2 := dropWhile_len_le isSpaceC r2
    simp only [List.length_cons] at h1
    omega
  next => cases h

theorem vmDecInt_len_le {cs : List Char} {v : String} {r : List Char}
    (h : vmDecInt cs = some (v, r)) : r.length ≤ cs.length := by
  unfold vmDecInt at h
  simp only [] at h
  split at h
  · cases h
  · rcases Option.map_eq_some'.mp h with ⟨t, ht, hv⟩
    cases hv
    exact le_trans (tailMatch_len_le ht) (drop_len_le _ _)

theorem vmHex_len_le {cs : List Char} {v : String} {r : List Char}
    (h : vmHex cs = some (v, r)) : r.length ≤ cs.length := by
  unfold vmHex at h
  simp only [] at h
  split at h
  next c0 x r0 =>
    split at h
    · split at h
      · cases h
      · rcases Option.map_eq_some'.mp h with ⟨t, ht, hv⟩
        cases hv
        have := le_trans (tailMatch_len_le ht) (drop_len_le _ r0)
        simp only [List.length_cons]
        omega
    · cases h
  next => cases h

theorem vmFloatTail_len_le {sgn cs1 : List Char} {v : String} {r : List Char}
    (h : vmFloatTail sgn cs1 = some (v, r)) : r.length ≤ cs1.length := by
  unfold vmFloatTail at h
  simp only [] at h
  split at h
  · cases h
  · split at h
    next r2 heq =>
      split at h
      · cases h
      · rcases Option.map_eq_some'.mp h with ⟨t, ht, hv⟩
        cases hv
        have h1 := le_trans (tailMatch_len_le ht) (drop_len_le _ r2)
        have h2 : ('.' :: r2).length ≤ cs1.length := heq ▸ drop_len_le _ _
        simp only [List.length_cons] at h2
        omega
    next => cases h

theorem vmFloat_len_le {cs : List Char} {v : String} {r : List Char}
    (h : vmFloat cs = some (v, r)) : r.length ≤ cs.length := by
  unfold vmFloat at h
  split at h
  next r0 =>
    have := vmFloatTail_len_le h
    simp only [List.length_cons]
    omega
  next =>
    exact vmFloatTail_len_le h

theorem vmQuoted_len_le {cs : List Char} {v : String} {r : List Char}
    (h : vmQuoted cs = some (v, r)) : r.length ≤ cs.length := by
  unfold vmQuoted at h
  simp only [] at h
  split at h
  next r0 =>
    split at h
    next r2 heq =>
      rcases Option.map_eq_some'.mp h with ⟨t, ht, hv⟩
      cases hv
      have h1 := tailMatch_len_le ht
      have h2 : ('"' :: r2).length ≤ r0.length := heq ▸ drop_len_le _ _
      simp only [List.length_cons] at h2 ⊢
      omega
    next => cases h
  next => cases h

theorem vmEnum_len_le {cs : List Char} {v : String} {r : List Char}
    (h : vmEnum cs = some (v, r)) : r.length ≤ cs.length := by
  unfold vmEnum at h
  simp only [] at h
  split at h
  · cases h
  · rcases Option.map_eq_some'.mp h with ⟨t, ht, hv⟩
    cases hv
    exact le_trans (tailMatch_len_le ht) (drop_len_le _ _)

theorem vmRes_len_le {cs : List Char} {v : String} {r : List Char}
    (h : vmRes cs = some (v, r)) : r.length ≤ cs.length := by
  unfold vmRes at h
  simp only [] at h
  split at h
  · cases h
  · split at h
    next r2 heq =>
      split at h
      · cases h
      · rcases Option.map_eq_some'.mp h with ⟨t, ht, hv⟩
        cases hv
        have h1 := le_trans (tailMatch_len_le ht) (drop_len_le _ r2)
        have h2 : ('x' :: r2).length ≤ cs.length := heq ▸ drop_len_le _ _
        simp only [List.length_cons] at h2
        omega
    next => cases h

theorem valueMatch_len_le {cs : List Char} {v : String} {r : List Char}
    (h : valueMatch cs = some (v, r)) : r.length ≤ cs.length := by
  unfold valueMatch at h
  rcases h1 : vmDecInt cs with _ | p1
  · rw [h1] at h
    rcases h2 : vmHex cs with _ | p2
    · rw [h2] at h
      rcases h3 : vmFloat cs with _ | p3
      · rw [h3] at h
        rcases h4 : vmQuoted cs with _ | p4
        · rw [h4] at h
          rcases h5 : vmEnum cs with _ | p5
          · rw [h5] at h
            simp only [Option.none_orElse] at h
            exact vmRes_len_le h
          · rw [h5] at h
            simp only [Option.none_orElse, Option.some_orElse] at h
            cases h
            exact vmEnum_len_le h5
        · rw [h4] at h
          simp only [Option.none_orElse, Option.some_orElse] at h
          cases h
          exact vmQuoted_len_le h4
      · rw [h3] at h
        simp only [Option.none_orElse, Option.some_orElse] at h
        cases h
        exact vmFloat_len_le h3
    · rw [h2] at h
      simp only [Option.none_orElse, Option.some_orElse] at h
      cases h
      exact vmHex_len_le h2
  · rw [h1] at h
    simp only [Option.some_orElse] at h
    cases h
    exact vmDecInt_len_le h1

theorem attrMatch_some_lt {cs : List Char} {k v : String} {rest : List Char}
    (h : attrMatch cs = some (k, v, rest)) : rest.length < cs.length := by
  unfold attrMatch at h
  simp only [] at h
  split at h
  · cases h
  next hne =>
    split at h
    next r heq =>
      rcases Option.map_eq_some'.mp h with ⟨p, hp, hv⟩
      cases hv
      have h1 := valueMatch_len_le hp
      have h2 : ('=' :: r).length = (cs.drop (cs.takeWhile isKeyC).length).length :=
        heq ▸ rfl
      have h3 : 0 < (cs.takeWhile isKeyC).length := by
        cases hk : cs.takeWhile isKeyC with
        | nil => rw [hk] at hne; simp at hne
        | cons a as => simp
      simp only [List.length_cons, List.length_drop] at h2
      omega
    next => cases h

/-- The joint characterization of `parse_attributes` and `attrEntries`: with
enough fuel the loop either fails (discarding everything and emitting the
warning) exactly when the all-or-nothing read fails, or folds every matched
entry over the accumulator. -/
theorem parseAttrsGo_spec :
    ∀ (fuel : Nat) (cs : List Char) (res : AttrMap), cs.length < fuel →
      (attrEntries fuel cs = none ∧
        parseAttrsGo fuel cs res = ([], ["Discarded invalid attributes list"])) ∨
      (∃ es, attrEntries fuel cs = some es ∧
        parseAttrsGo fuel cs res = (es.foldl (fun m kv => dset m kv.1 kv.2) res, [])) := by
  intro fuel
  induction fuel with
  | zero => intro cs res h; omega
  | succ n ih =>
    intro cs res h
    cases cs with
    | nil =>
      right
      exact ⟨[], rfl, rfl⟩
    | cons c cs' =>
      rcases hm : attrMatch (c :: cs') with _ | ⟨k, v, rest⟩
      · left
        constructor
        · simp [attrEntries, hm]
        · simp [parseAttrsGo, hm]
      · have hlt : rest.length < n := by
          have := attrMatch_some_lt hm
          simp only [List.length_cons] at this h
          omega
        rcases ih rest (dset res k v) hlt with ⟨he, hg⟩ | ⟨es, he, hg⟩
        · left
          constructor
          · simp [attrEntries, hm, he]
          · simp [parseAttrsGo, hm, hg]
        · right
          refine ⟨(k, v) :: es, ?_, ?_⟩
          · simp [attrEntries, hm, he]
          · simp [parseAttrsGo, hm, hg, List.foldl]

/-- A line whose tag split succeeds begins with the directive sentinel. -/
theorem split_tag_starts {line t v : String}
    (h : split_tag line = some (t, v)) : lineStarts line "#" = true := by
  unfold split_tag at h
  split at h
  next rest heq =>
    have hd : ("#" : String).data = ['#'] := rfl
    simp only [lineStarts, hd, heq, startsL]
    simp
  next => cases h

/-- C5: for every attribute-list string, the attribute parser returns either a
mapping reflecting every KEY=VALUE entry of the list (the fold of the
all-or-nothing entry read over the empty dict) or, when any entry fails to
match at its expected position, the empty mapping together with the warning;
a partial mapping is never returned. -/
theorem C5_attributes_all_or_nothing (value : String) :
    ((parse_attributes value).1 = [] ∧
      attrEntries (value.data.length + 1) value.data = none ∧
      (parse_attributes value).2 = ["Discarded invalid attributes list"]) ∨
    (∃ es, attrEntries (value.data.length + 1) value.data = some es ∧
      (parse_attributes value).1 = es.foldl (fun m kv => dset m kv.1 kv.2) [] ∧
      (parse_attributes value).2 = []) := by
  have hpa : parse_attributes value = parseAttrsGo (value.data.length + 1) value.data [] := rfl
  rcases parseAttrsGo_spec (value.data.length + 1) value.data [] (by omega) with
    ⟨he, hg⟩ | ⟨es, he, hg⟩
  · left
    exact ⟨by rw [hpa, hg], he, by rw [hpa, hg]⟩
  · right
    exact ⟨es, he, by rw [hpa, hg], by rw [hpa, hg]⟩

/-- C1: when there is a first non-empty line, its failing the `#EXTM3U` check
makes the whole parse abort with the `ValueError` (no partial document is
returned), and its passing the check makes the parse proceed past the header
into the main line loop on the remaining lines. -/
theorem C1_header_validation (base : Option String) (lines : List String)
    (l : String) (rest : List String)
    (h : lines.filter (fun x => x != "") = l :: rest) :
    (lineStarts l "#EXTM3U" = false →
      parse base lines = .error "Missing #EXTM3U header") ∧
    (lineStarts l "#EXTM3U" = true →
      parse base lines = parseAfterHeader base rest) := by
  constructor <;> intro hl <;> simp [parse, h, hl]

theorem C1_header_validation_witness :
    parse none ["junk"] = .error "Missing #EXTM3U header" ∧
    parse none ["#EXTM3U", "#EXT-X-ENDLIST"] = parseAfterHeader none ["#EXT-X-ENDLIST"] :=
  ⟨(C1_header_validation none ["junk"] "junk" [] rfl).1 rfl,
   (C1_header_validation none ["#EXTM3U", "#EXT-X-ENDLIST"] "#EXTM3U"
      ["#EXT-X-ENDLIST"] rfl).2 rfl⟩

/-- C9: an input with no non-empty lines at all returns the fresh empty
document (no segments, no variants, `is_master` false) without any header
error — the header check is only applied when a first non-empty line
exists. -/
theorem C9_no_lines_empty_document (base : Option String) (lines : List String)
    (h : lines.filter (fun x => x != "") = []) :
    parse base lines = .ok (initM3U8 base) ∧
    (initM3U8 base).segments = [] ∧
    (initM3U8 base).playlists = [] ∧
    (initM3U8 base).is_master = false := by
  refine ⟨?_, rfl, rfl, rfl⟩
  simp [parse, h]
  rfl

theorem C9_no_lines_empty_document_witness :
    parse none ["", ""] = .ok (initM3U8 none) ∧
    (initM3U8 none).segments = [] ∧
    (initM3U8 none).playlists = [] ∧
    (initM3U8 none).is_master = false :=
  C9_no_lines_empty_document none ["", ""] rfl

/-- C7: a directive line is ignored with no state change when the tag split
fails (the Python `(None, None)` result, which is the only way the tag value
can be absent) or when the tag is not in the registry; otherwise the
registered handler is invoked on the split-off value. -/
theorem C7_directive_dispatch (s : PState) (line : String)
    (hash : lineStarts line "#" = true) :
    (split_tag line = none → parse_line s line = .ok s) ∧
    (∀ tag value, split_tag line = some (tag, value) → findTag tag = none →
      parse_line s line = .ok s) ∧
    (∀ tag value nm h, split_tag line = some (tag, value) →
      findTag tag = some (nm, h) → parse_line s line = h value s) := by
  refine ⟨?_, ?_, ?_⟩
  · intro hs
    simp only [parse_line, hash, if_true, hs]
    rfl
  · intro tag value hs hf
    simp [parse_line, hash, hs, hf]
    rfl
  · intro tag value nm h hs hf
    simp [parse_line, hash, hs, hf]

theorem pyInt_empty : pyInt "" = .error "invalid literal for int() with base 10: " := rfl

theorem bandwidthOf_falsy {m : AttrMap}
    (h : dget m "BANDWIDTH" = none ∨ dget m "BANDWIDTH" = some "") :
    bandwidthOf m = .ok 0 := by
  rcases h with h | h <;> simp [bandwidthOf, h] <;> rfl

theorem exceptOkBind {α β : Type} (a : α) (f : α → Except String β) :
    (Except.ok a >>= f : Except String β) = f a := rfl

theorem exceptErrBind {α β : Type} (e : String) (f : α → Except String β) :
    (Except.error e >>= f : Except String β) = Except.error e := rfl

theorem bandwidthOf_pos {m : AttrMap} {bw : String} {n : Int}
    (h : dget m "BANDWIDTH" = some bw) (hn : pyInt bw = .ok n) (hpos : 0 < n) :
    bandwidthOf m = .ok (pyRound n (1 - (log10Go n.toNat n.toNat : Int))) := by
  have hbw : bw ≠ "" := by
    intro he
    rw [he, pyInt_empty] at hn
    cases hn
  have hle : ¬ n ≤ 0 := not_le.mpr hpos
  simp only [bandwidthOf, h, hbw, hn, pyLog10Int, if_false]
  rw [exceptOkBind, if_neg hle]
  rfl

theorem create_stream_info_ok {m : AttrMap} {b : Int} (h : bandwidthOf m = .ok b) :
    create_stream_info m = .ok
      { bandwidth := b, program_id := dget m "PROGRAM-ID", codecs := codecsOf m,
        resolution := resolutionOf m, audio := dget m "AUDIO",
        video := dget m "VIDEO", subtitles := dget m "SUBTITLES" } := by
  simp [create_stream_info, h, Except.bind]

theorem create_iframe_stream_info_ok {m : AttrMap} {b : Int} (h : bandwidthOf m = .ok b) :
    create_iframe_stream_info m = .ok
      { bandwidth := b, program_id := dget m "PROGRAM-ID", codecs := codecsOf m,
        resolution := resolutionOf m, video := dget m "VIDEO" } := by
  simp [create_iframe_stream_info, h, Except.bind]

theorem create_stream_info_err {m : AttrMap} {e : String} (h : bandwidthOf m = .error e) :
    create_stream_info m = .error e := by
  simp [create_stream_info, h, Except.bind]

theorem create_iframe_stream_info_err {m : AttrMap} {e : String}
    (h : bandwidthOf m = .error e) : create_iframe_stream_info m = .error e := by
  simp [create_iframe_stream_info, h, Except.bind]

/-- C3 counterexample: a BANDWIDTH attribute value of `"0"` does not yield a
stored bandwidth of 0 — the string `"0"` is truthy, so the code reaches
`math.log10(0)` and the whole construction (and any parse that performs it)
raises `ValueError: math domain error`. -/
theorem C3_bandwidth_zero_counterexample :
    create_stream_info [("BANDWIDTH", "0")] = .error "math domain error" ∧
    create_iframe_stream_info [("BANDWIDTH", "0")] = .error "math domain error" ∧
    parse none ["#EXTM3U", "#EXT-X-STREAM-INF:BANDWIDTH=0", "v.m3u8"] =
      .error "math domain error" :=
  ⟨rfl, rfl, rfl⟩

/-- C3 amended: an absent or empty BANDWIDTH attribute yields bandwidth 0; a
BANDWIDTH parsing to a positive integer `n` is stored as
`round(n, 1 - int(log10(n)))` with the host round primitive's half-to-even
tie behavior, for both EXT-X-STREAM-INF and EXT-X-I-FRAME-STREAM-INF
construction; but the value `"0"` (unlike what the claim states) raises the
`math domain error` instead of yielding 0. -/
theorem C3_bandwidth_amended (m : AttrMap) :
    (dget m "BANDWIDTH" = none ∨ dget m "BANDWIDTH" = some "" →
      ∃ si isi, create_stream_info m = .ok si ∧ si.bandwidth = 0 ∧
        create_iframe_stream_info m = .ok isi ∧ isi.bandwidth = 0) ∧
    (∀ bw n, dget m "BANDWIDTH" = some bw → pyInt bw = .ok n → 0 < n →
      ∃ si isi, create_stream_info m = .ok si ∧
        si.bandwidth = pyRound n (1 - (log10Go n.toNat n.toNat : Int)) ∧
        create_iframe_stream_info m = .ok isi ∧
        isi.bandwidth = pyRound n (1 - (log10Go n.toNat n.toNat : Int))) ∧
    (dget m "BANDWIDTH" = some "0" →
      create_stream_info m = .error "math domain error" ∧
      create_iframe_stream_info m = .error "math domain error") := by
  refine ⟨?_, ?_, ?_⟩
  · intro h
    exact ⟨_, _, create_stream_info_ok (bandwidthOf_falsy h), rfl,
           create_iframe_stream_info_ok (bandwidthOf_falsy h), rfl⟩
  · intro bw n h hn hpos
    exact ⟨_, _, create_stream_info_ok (bandwidthOf_pos h hn hpos), rfl,
           create_iframe_stream_info_ok (bandwidthOf_pos h hn hpos), rfl⟩
  · intro h
    have hb : bandwidthOf m = .error "math domain error" := by
      simp [bandwidthOf, h, pyInt, pyStrip, natOfDigits, pyLog10Int, Except.bind]
      rfl
    exact ⟨create_stream_info_err hb, create_iframe_stream_info_err hb⟩

theorem C3_bandwidth_amended_witness :
    (∃ si isi, create_stream_info [("BANDWIDTH", "1234567")] = .ok si ∧
      si.bandwidth = pyRound 1234567 (1 - (log10Go (1234567 : Int).toNat (1234567 : Int).toNat : Int)) ∧
      create_iframe_stream_info [("BANDWIDTH", "1234567")] = .ok isi ∧
      isi.bandwidth = pyRound 1234567 (1 - (log10Go (1234567 : Int).toNat (1234567 : Int).toNat : Int))) ∧
    pyRound 1234567 (1 - (log10Go (1234567 : Int).toNat (1234567 : Int).toNat : Int)) = 1200000 ∧
    (∃ si isi, create_stream_info [] = .ok si ∧ si.bandwidth = 0 ∧
      create_iframe_stream_info [] = .ok isi ∧ isi.bandwidth = 0) ∧
    (create_stream_info [("BANDWIDTH", "0")] = .error "math domain error" ∧
      create_iframe_stream_info [("BANDWIDTH", "0")] = .error "math domain error") :=
  ⟨(C3_bandwidth_amended [("BANDWIDTH", "1234567")]).2.1 "1234567" 1234567 rfl rfl (by decide),
   by decide,
   (C3_bandwidth_amended []).1 (Or.inl rfl),
   (C3_bandwidth_amended [("BANDWIDTH", "0")]).2.2 rfl⟩

theorem except_bind_ok_elim {α β : Type} {e : Except String α} {f : α → Except String β}
    {b : β} (h : (e >>= f) = .ok b) : ∃ a, e = .ok a ∧ f a = .ok b := by
  cases e with
  | error err => rw [exceptErrBind] at h; cases h
  | ok a => rw [exceptOkBind] at h; exact ⟨a, rfl, h⟩

/-- No handler other than the one registered under the misspelled
`EXT-X-DISCONTINUTY-SEQUENCE` tag can change the document's
discontinuity-sequence counter. -/
theorem handler_preserves_disc_seq :
    ∀ p : String × Handler, p ∈ TAGS → p.1 ≠ "EXT-X-DISCONTINUTY-SEQUENCE" →
    ∀ (v : String) (s s' : PState), p.2 v s = .ok s' →
    s'.m3u8.discontinuity_sequence = s.m3u8.discontinuity_sequence := by
  intro p hmem hne v s s' h
  simp only [TAGS, List.mem_cons, List.not_mem_nil, or_false] at hmem
  rcases hmem with rfl | rfl | rfl | rfl | rfl | rfl | rfl | rfl | rfl | rfl | rfl | rfl |
    rfl | rfl | rfl | rfl | rfl | rfl | rfl | rfl | rfl | rfl
  · unfold parse_tag_ext_x_version at h
    obtain ⟨n, hn2, h⟩ := except_bind_ok_elim h
    cases h; rfl
  · unfold parse_tag_extinf at h
    cases h; rfl
  · unfold parse_tag_ext_x_byterange at h
    cases h; rfl
  · unfold parse_tag_ext_x_discontinuity at h
    cases h; rfl
  · unfold parse_tag_ext_x_key at h
    simp only [] at h
    split at h
    · cases h; rfl
    · split at h
      · cases h; rfl
      · cases h; rfl
  · unfold parse_tag_ext_x_map at h
    simp only [] at h
    split at h
    · cases h; rfl
    · split at h
      · cases h; rfl
      · cases h; rfl
  · unfold parse_tag_ext_x_program_date_time at h
    cases h; rfl
  · unfold parse_tag_ext_x_daterange at h
    simp only [] at h
    obtain ⟨d1, hd1, h⟩ := except_bind_ok_elim h
    obtain ⟨d2, hd2, h⟩ := except_bind_ok_elim h
    cases h; rfl
  · unfold parse_tag_ext_x_targetduration at h
    obtain ⟨x, hx, h⟩ := except_bind_ok_elim h
    cases h; rfl
  · unfold parse_tag_ext_x_media_sequence at h
    obtain ⟨n, hn2, h⟩ := except_bind_ok_elim h
    cases h; rfl
  · exact absurd rfl hne
  · unfold parse_tag_ext_x_endlist at h
    cases h; rfl
  · unfold parse_tag_ext_x_playlist_type at h
    cases h; rfl
  · unfold parse_tag_ext_x_i_frames_only at h
    cases h; rfl
  · unfold parse_tag_ext_x_media at h
    simp only [] at h
    split at h
    · cases h; rfl
    · cases h; rfl
  · unfold parse_tag_ext_x_stream_inf at h
    cases h; rfl
  · unfold parse_tag_ext_x_i_frame_stream_inf at h
    simp only [] at h
    split at h
    · cases h; rfl
    · obtain ⟨si, hsi, h⟩ := except_bind_ok_elim h
      cases h; rfl
  · unfold parse_tag_ext_x_session_data at h
    cases h; rfl
  · unfold parse_tag_ext_x_session_key at h
    cases h; rfl
  · unfold parse_tag_ext_x_independent_segments at h
    cases h; rfl
  · unfold parse_tag_ext_x_start at h
    simp only [] at h
    split at h
    · cases h; rfl
    · obtain ⟨t, ht, h⟩ := except_bind_ok_elim h
      cases h; rfl
  · unfold parse_tag_ext_x_allow_cache at h
    cases h; rfl

/-- One parsed line whose tag is not the misspelled discontinuity-sequence
tag leaves the document's discontinuity-sequence counter unchanged. -/
theorem parse_line_preserves_disc_seq {s : PState} {l : String} {s' : PState}
    (h : parse_line s l = .ok s')
    (hn : (split_tag l).map Prod.fst ≠ some "EXT-X-DISCONTINUTY-SEQUENCE") :
    s'.m3u8.discontinuity_sequence = s.m3u8.discontinuity_sequence := by
  unfold parse_line at h
  split at h
  · split at h
    · cases h; rfl
    next tag value hs =>
      split at h
      · cases h; rfl
      next nm hd hf =>
        have hmem := List.mem_of_find?_eq_some hf
        have hbeq : nm == tag := by
          have := List.find?_some hf
          exact this
        have hnm : nm = tag := eq_of_beq hbeq
        subst hnm
        have hne : nm ≠ "EXT-X-DISCONTINUTY-SEQUENCE" := by
          intro he
          subst he
          rw [hs] at hn
          exact hn rfl
        exact handler_preserves_disc_seq (nm, hd) hmem hne value s s' h
  · split at h
    · cases h; rfl
    · split at h
      · obtain ⟨gp, hgp, h⟩ := except_bind_ok_elim h
        cases h
        unfold get_playlist at hgp
        simp only [] at hgp
        obtain ⟨si, hsi, hgp⟩ := except_bind_ok_elim hgp
        cases hgp
        rfl
      · cases h; rfl

/-- The whole line loop preserves the discontinuity-sequence counter when no
line carries the misspelled tag. -/
theorem parseLines_preserves_disc_seq :
    ∀ (ls : List String) (s s' : PState),
      parseLines s ls = .ok s' →
      (∀ l ∈ ls, (split_tag l).map Prod.fst ≠ some "EXT-X-DISCONTINUTY-SEQUENCE") →
      s'.m3u8.discontinuity_sequence = s.m3u8.discontinuity_sequence := by
  intro ls
  induction ls with
  | nil =>
    intro s s' h _
    cases h; rfl
  | cons l ls ih =>
    intro s s' h hn
    unfold parseLines at h
    obtain ⟨s1, h1, h2⟩ := except_bind_ok_elim h
    rw [ih s1 s' h2 (fun x hx => hn x (List.mem_cons_of_mem _ hx)),
        parse_line_preserves_disc_seq h1 (hn l (List.mem_cons_self _ _))]

/-- C10: the registry key for the discontinuity-sequence handler is the
misspelled `EXT-X-DISCONTINUTY-SEQUENCE` (missing the second I); the
correctly spelled `EXT-X-DISCONTINUITY-SEQUENCE` is not registered, so a
line carrying it is ignored with no state change; the handler under the
misspelled name sets the counter; and any successfully parsed document none
of whose lines carries the misspelled tag — in particular one using only the
correct spelling — ends with the counter absent. -/
theorem C10_misspelled_discontinuity_sequence :
    (findTag "EXT-X-DISCONTINUITY-SEQUENCE" = none) ∧
    (findTag "EXT-X-DISCONTINUTY-SEQUENCE" =
      some ("EXT-X-DISCONTINUTY-SEQUENCE", parse_tag_ext_x_discontinuity_sequence)) ∧
    (∀ (s : PState) (l v : String),
      split_tag l = some ("EXT-X-DISCONTINUITY-SEQUENCE", v) →
      parse_line s l = .ok s) ∧
    (∀ (s : PState) (v : String) (n : Int), pyInt v = .ok n →
      parse_tag_ext_x_discontinuity_sequence v s =
        .ok { s with m3u8 := { s.m3u8 with discontinuity_sequence := some n } }) ∧
    (∀ (base : Option String) (lines : List String) (m : M3U8),
      (∀ l ∈ lines, (split_tag l).map Prod.fst ≠ some "EXT-X-DISCONTINUTY-SEQUENCE") →
      parse base lines = .ok m → m.discontinuity_sequence = none) := by
  refine ⟨rfl, rfl, ?_, ?_, ?_⟩
  · intro s l v hs
    simp [parse_line, split_tag_starts hs, hs]
    rfl
  · intro s v n hn
    unfold parse_tag_ext_x_discontinuity_sequence
    rw [hn, exceptOkBind]
    rfl
  · intro base lines m hn h
    unfold parse at h
    split at h
    · cases h; rfl
    next first rest hfil =>
      split at h
      · unfold parseAfterHeader at h
        obtain ⟨s', hs', h⟩ := except_bind_ok_elim h
        cases h
        show (associate s'.m3u8).discontinuity_sequence = none
        have hrest : ∀ l ∈ rest,
            (split_tag l).map Prod.fst ≠ some "EXT-X-DISCONTINUTY-SEQUENCE" := by
          intro l hl
          apply hn
          apply List.mem_of_mem_filter (p := fun x => x != "")
          rw [hfil]
          exact List.mem_cons_of_mem _ hl
        have := parseLines_preserves_disc_seq rest (initPState base) s' hs' hrest
        show s'.m3u8.discontinuity_sequence = none
        rw [this]
        rfl
      · cases h

theorem C10_misspelled_discontinuity_sequence_witness :
    ((initM3U8 none).discontinuity_sequence = none ∧
      parse none ["#EXTM3U", "#EXT-X-DISCONTINUITY-SEQUENCE:5"] = .ok (initM3U8 none)) ∧
    parse_tag_ext_x_discontinuity_sequence "5" (initPState none) =
      .ok { initPState none with
            m3u8 := { (initPState none).m3u8 with discontinuity_sequence := some 5 } } :=
  ⟨⟨C10_misspelled_discontinuity_sequence.2.2.2.2 none
      ["#EXTM3U", "#EXT-X-DISCONTINUITY-SEQUENCE:5"] (initM3U8 none)
      (by decide) rfl,
    rfl⟩,
   C10_misspelled_discontinuity_sequence.2.2.2.1 (initPState none) "5" 5 rfl⟩

/-- A directive line with a registered tag dispatches to its handler. -/
theorem parse_line_tag {s : PState} {line tag value nm : String} {h : Handler}
    (hs : split_tag line = some (tag, value)) (hf : findTag tag = some (nm, h)) :
    parse_line s line = h value s := by
  simp [parse_line, split_tag_starts hs, hs, hf]

/-- Frame conditions of the EXT-X-KEY handler: it can only change the active
key and the warning log. -/
theorem key_handler_frame {value : String} {s s' : PState}
    (h : parse_tag_ext_x_key value s = .ok s') :
    s'.expect_segment = s.expect_segment ∧ s'.expect_playlist = s.expect_playlist ∧
    s'.m3u8 = s.m3u8 ∧ s'.extinf = s.extinf ∧ s'.byterange = s.byterange ∧
    s'.discontinuity = s.discontinuity ∧ s'.map = s.map ∧ s'.date = s.date ∧
    s'.streaminf = s.streaminf := by
  unfold parse_tag_ext_x_key at h
  simp only [] at h
  split at h
  · cases h
    exact ⟨rfl, rfl, rfl, rfl, rfl, rfl, rfl, rfl, rfl⟩
  · split at h
    · cases h
      exact ⟨rfl, rfl, rfl, rfl, rfl, rfl, rfl, rfl, rfl⟩
    · cases h
      exact ⟨rfl, rfl, rfl, rfl, rfl, rfl, rfl, rfl, rfl⟩

/-- Frame conditions of the EXT-X-MAP handler: it can only change the active
map and the warning log. -/
theorem map_handler_frame {value : String} {s s' : PState}
    (h : parse_tag_ext_x_map value s = .ok s') :
    s'.expect_segment = s.expect_segment ∧ s'.expect_playlist = s.expect_playlist ∧
    s'.m3u8 = s.m3u8 ∧ s'.extinf = s.extinf ∧ s'.byterange = s.byterange ∧
    s'.discontinuity = s.discontinuity ∧ s'.key = s.key ∧ s'.date = s.date ∧
    s'.streaminf = s.streaminf := by
  unfold parse_tag_ext_x_map at h
  simp only [] at h
  split at h
  · cases h
    exact ⟨rfl, rfl, rfl, rfl, rfl, rfl, rfl, rfl, rfl⟩
  · split at h
    · cases h
      exact ⟨rfl, rfl, rfl, rfl, rfl, rfl, rfl, rfl, rfl⟩
    · cases h
      exact ⟨rfl, rfl, rfl, rfl, rfl, rfl, rfl, rfl, rfl⟩

/-- A non-directive line consumed in the expecting-segment state appends the
segment built from the pending fields and clears the per-segment pending
fields, while key and map persist. -/
theorem parse_line_segment {s : PState} {line : String}
    (hl : lineStarts line "#" = false) (hseg : s.expect_segment = true) :
    parse_line s line = .ok
      { s with expect_segment := false, extinf := none, discontinuity := false,
               byterange := none, date := none,
               m3u8 := { s.m3u8 with segments := s.m3u8.segments ++
                 [{ uri := resolveURI s.m3u8.uri line
                    duration := (s.extinf.getD ⟨0, none⟩).duration
                    title := (s.extinf.getD ⟨0, none⟩).title
                    key := s.key
                    discontinuity := s.discontinuity
                    byterange := s.byterange
                    date := s.date
                    map := s.map }] } } := by
  simp only [parse_line, hl, hseg, if_true, Bool.false_eq_true, if_false, get_segment]
  rfl

/-- C4: the EXT-X-DISCONTINUITY handler sets the pending discontinuity flag
and clears the pending map, leaving every other pending field (key, extinf,
byterange, date, stream-info, the expecting states) and the document
untouched; and in any document where an EXT-X-KEY tag and an EXT-X-MAP tag
are followed by EXT-X-DISCONTINUITY and then a segment content line, the
constructed segment has no map, has the discontinuity flag set, and carries
exactly the encryption key established before the discontinuity. -/
theorem C4_discontinuity_effect :
    (∀ (v : String) (s0 : PState), parse_tag_ext_x_discontinuity v s0 =
      .ok { s0 with discontinuity := true, map := none }) ∧
    (∀ (s s1 s2 s3 : PState) (l1 v1 l2 v2 segline : String) (k : Key),
      s.expect_segment = true →
      split_tag l1 = some ("EXT-X-KEY", v1) →
      parse_line s l1 = .ok s1 →
      s1.key = some k →
      split_tag l2 = some ("EXT-X-MAP", v2) →
      parse_line s1 l2 = .ok s2 →
      parse_line s2 "#EXT-X-DISCONTINUITY" = .ok s3 →
      lineStarts segline "#" = false →
      ∃ s4 seg, parse_line s3 segline = .ok s4 ∧
        s4.m3u8.segments = s3.m3u8.segments ++ [seg] ∧
        seg.map = none ∧ seg.discontinuity = true ∧ seg.key = some k) := by
  constructor
  · intro v s0
    rfl
  · intro s s1 s2 s3 l1 v1 l2 v2 segline k hseg h1t h1 h1k h2t h2 h3 hsl
    rw [parse_line_tag h1t
      (rfl : findTag "EXT-X-KEY" = some ("EXT-X-KEY", parse_tag_ext_x_key))] at h1
    have f1 := key_handler_frame h1
    rw [parse_line_tag h2t
      (rfl : findTag "EXT-X-MAP" = some ("EXT-X-MAP", parse_tag_ext_x_map))] at h2
    have f2 := map_handler_frame h2
    rw [parse_line_tag
      (rfl : split_tag "#EXT-X-DISCONTINUITY" = some ("EXT-X-DISCONTINUITY", ""))
      (rfl : findTag "EXT-X-DISCONTINUITY" =
        some ("EXT-X-DISCONTINUITY", parse_tag_ext_x_discontinuity))] at h3
    have h3' : ({ s2 with discontinuity := true, map := none } : PState) = s3 := by
      injection h3
    subst h3'
    have hs3seg : ({ s2 with discontinuity := true, map := none } : PState).expect_segment
        = true := by
      show s2.expect_segment = true
      rw [f2.1, f1.1]
      exact hseg
    refine ⟨_, _, parse_line_segment hsl hs3seg, rfl, rfl, rfl, ?_⟩
    show s2.key = some k
    rw [f2.2.2.2.2.2.2.1]
    exact h1k

theorem C4_discontinuity_effect_witness :
    ∃ s4 seg,
      parse_line
        { initPState none with
          expect_segment := true
          discontinuity := true
          key := some { method := "NONE", uri := none, iv := none,
                        key_format := none, key_format_versions := none } }
        "seg.ts" = .ok s4 ∧
      s4.m3u8.segments =
        ({ initPState none with
           expect_segment := true
           discontinuity := true
           key := some { method := "NONE", uri := none, iv := none,
                         key_format := none, key_format_versions := none } }
          : PState).m3u8.segments ++ [seg] ∧
      seg.map = none ∧ seg.discontinuity = true ∧
      seg.key = some { method := "NONE", uri := none, iv := none,
                       key_format := none, key_format_versions := none } :=
  C4_discontinuity_effect.2
    { initPState none with expect_segment := true }
    { initPState none with
      expect_segment := true
      key := some { method := "NONE", uri := none, iv := none,
                    key_format := none, key_format_versions := none } }
    { initPState none with
      expect_segment := true
      key := some { method := "NONE", uri := none, iv := none,
                    key_format := none, key_format_versions := none }
      map := some { uri := "i.mp4", byterange := none } }
    { initPState none with
      expect_segment := true
      discontinuity := true
      key := some { method := "NONE", uri := none, iv := none,
                    key_format := none, key_format_versions := none } }
    "#EXT-X-KEY:METHOD=NONE" "METHOD=NONE"
    "#EXT-X-MAP:URI=\"i.mp4\"" "URI=\"i.mp4\"" "seg.ts"
    { method := "NONE", uri := none, iv := none,
      key_format := none, key_format_versions := none }
    rfl rfl rfl rfl rfl rfl rfl rfl

/-- C2 counterexample: not every malformed directive value is discarded in
place — a non-numeric EXT-X-VERSION, EXT-X-TARGETDURATION or EXT-X-START
TIME-OFFSET value feeds an unguarded `int()`/`float()` conversion whose
`ValueError` escapes the directive's handling and aborts the whole parse. -/
theorem C2_directive_exception_counterexample :
    isErr (parse none ["#EXTM3U", "#EXT-X-VERSION:abc"]) = true ∧
    isErr (parse none ["#EXTM3U", "#EXT-X-TARGETDURATION:abc"]) = true ∧
    isErr (parse none ["#EXTM3U", "#EXT-X-START:TIME-OFFSET=abc"]) = true :=
  ⟨rfl, rfl, rfl⟩

/-- C2 amended: the recoverable malformed constructs enumerated by the spec
are discarded in place, a warning is emitted on the modeled side channel and
parsing continues — an unknown tag is ignored with no state change, a
discarded attribute list leaves EXT-X-KEY with no effect beyond the warning,
an EXT-X-MEDIA tag missing its required TYPE is dropped, a hexadecimal value
without the `0x`/`0X` prefix decodes to absent with a warning (and EXT-X-KEY
never raises, malformed IV included), a malformed timestamp decodes to
absent with a warning, and a malformed resolution decodes to (0,0); but —
contrary to the claim — a malformed numeric directive value such as a
non-numeric EXT-X-VERSION or EXT-X-TARGETDURATION raises a `ValueError`
that escapes the handler (and therefore the parse, see the
counterexample). -/
theorem C2_malformed_constructs_amended :
    (∀ (s : PState) (line tag value : String),
      split_tag line = some (tag, value) → findTag tag = none →
      parse_line s line = .ok s) ∧
    (∀ (s : PState) (value : String), (parse_attributes value).1 = [] →
      parse_tag_ext_x_key value s =
        .ok { s with warnings := s.warnings ++ (parse_attributes value).2 }) ∧
    (∀ (s : PState) (value : String), dget (parse_attributes value).1 "TYPE" = none →
      parse_tag_ext_x_media value s =
        .ok { s with warnings := s.warnings ++ (parse_attributes value).2 }) ∧
    (∀ v : String, v.data.take 2 ≠ ['0', 'x'] → v.data.take 2 ≠ ['0', 'X'] →
      parse_hex (some v) =
        (none, ["Discarded invalid hexadecimal-sequence attribute value"])) ∧
    (∀ (s : PState) (value : String), ∃ s', parse_tag_ext_x_key value s = .ok s') ∧
    (∀ (s : PState) (value : String), parse_datetime value = none →
      parse_tag_ext_x_program_date_time value s =
        .ok { s with
              date := none
              warnings := s.warnings ++ ["Discarded invalid ISO8601 attribute value"] }) ∧
    (∀ v : String, v.data.takeWhile Char.isDigit = [] → parse_resolution v = ⟨0, 0⟩) ∧
    (∀ (s : PState) (value e : String), pyInt value = .error e →
      parse_tag_ext_x_version value s = .error e) ∧
    (∀ (s : PState) (value e : String), pyFloat value = .error e →
      parse_tag_ext_x_targetduration value s = .error e) := by
  refine ⟨?_, ?_, ?_, ?_, ?_, ?_, ?_, ?_, ?_⟩
  · intro s line tag value hs hf
    simp [parse_line, split_tag_starts hs, hs, hf]
    rfl
  · intro s value h
    unfold parse_tag_ext_x_key
    simp only []
    rw [h]
    rfl
  · intro s value h
    unfold parse_tag_ext_x_media
    simp only []
    rw [h]
    rfl
  · intro v h1 h2
    simp [parse_hex, h1, h2]
  · intro s value
    unfold parse_tag_ext_x_key
    simp only []
    split
    · exact ⟨_, rfl⟩
    · split
      · exact ⟨_, rfl⟩
      · exact ⟨_, rfl⟩
  · intro s value h
    unfold parse_tag_ext_x_program_date_time parse_iso8601
    simp only []
    rw [h]
    rfl
  · intro v h
    unfold parse_resolution
    simp only []
    rw [h]
    rfl
  · intro s value e h
    unfold parse_tag_ext_x_version
    rw [h, exceptErrBind]
  · intro s value e h
    unfold parse_tag_ext_x_targetduration
    rw [h, exceptErrBind]

theorem C2_malformed_constructs_amended_witness :
    parse_line (initPState none) "#EXT-X-NOPE:1" = .ok (initPState none) ∧
    parse_tag_ext_x_key "=" (initPState none) =
      .ok { initPState none with warnings := [] ++ (parse_attributes "=").2 } ∧
    parse_tag_ext_x_media "URI=\"x\"" (initPState none) =
      .ok { initPState none with warnings := [] ++ (parse_attributes "URI=\"x\"").2 } ∧
    parse_hex (some "ZZ") =
      (none, ["Discarded invalid hexadecimal-sequence attribute value"]) ∧
    (∃ s', parse_tag_ext_x_key "METHOD=AES-128,IV=0xZZ" (initPState none) = .ok s') ∧
    parse_tag_ext_x_program_date_time "nope" (initPState none) =
      .ok { initPState none with
            date := none
            warnings := [] ++ ["Discarded invalid ISO8601 attribute value"] } ∧
    parse_resolution "x" = ⟨0, 0⟩ ∧
    parse_tag_ext_x_version "abc" (initPState none) =
      .error "invalid literal for int() with base 10: abc" ∧
    parse_tag_ext_x_targetduration "abc" (initPState none) =
      .error "could not convert string to float: abc" :=
  ⟨C2_malformed_constructs_amended.1 (initPState none) "#EXT-X-NOPE:1" "EXT-X-NOPE" "1" rfl rfl,
   C2_malformed_constructs_amended.2.1 (initPState none) "=" rfl,
   C2_malformed_constructs_amended.2.2.1 (initPState none) "URI=\"x\"" rfl,
   C2_malformed_constructs_amended.2.2.2.1 "ZZ" (by decide) (by decide),
   C2_malformed_constructs_amended.2.2.2.2.1 (initPState none) "METHOD=AES-128,IV=0xZZ",
   C2_malformed_constructs_amended.2.2.2.2.2.1 (initPState none) "nope" rfl,
   C2_malformed_constructs_amended.2.2.2.2.2.2.1 "x" rfl,
   C2_malformed_constructs_amended.2.2.2.2.2.2.2.1 (initPState none) "abc" _ rfl,
   C2_malformed_constructs_amended.2.2.2.2.2.2.2.2 (initPState none) "abc" _ rfl⟩

/-- C8 counterexample: the EXT-X-I-FRAME-STREAM-INF handler is not
self-contained in the claimed sense — with a pending (non-empty)
EXT-X-STREAM-INF attribute list, the i-frame variant's stream info is built
from that pending list (bandwidth 100), not from the tag's own attribute
list (bandwidth 200), both at the handler and through a full parse. -/
theorem C8_iframe_pending_counterexample :
    (parse_tag_ext_x_i_frame_stream_inf "BANDWIDTH=200,URI=\"x\""
        { initPState none with streaminf := some [("BANDWIDTH", "100")] }).map
      (fun s => s.m3u8.playlists.map (fun p =>
        match p.stream_info with
        | .iframe si => si.bandwidth
        | .variant si => si.bandwidth)) = .ok [100] ∧
    (parse none ["#EXTM3U", "#EXT-X-STREAM-INF:BANDWIDTH=100",
        "#EXT-X-I-FRAME-STREAM-INF:BANDWIDTH=200,URI=\"x\""]).map
      (fun m => m.playlists.map (fun p =>
        match p.stream_info with
        | .iframe si => si.bandwidth
        | .variant si => si.bandwidth)) = .ok [100] :=
  ⟨rfl, rfl⟩

/-- C8 amended: for an EXT-X-I-FRAME-STREAM-INF tag with a non-empty URI
attribute, the handler builds the i-frame stream info from the pending
EXT-X-STREAM-INF attribute list when one is pending and non-empty, and only
otherwise from the tag's own attribute list; the URI always comes from the
tag's own attribute list; the variant is appended to the document
immediately; the pending list is cleared; and the expecting-segment and
expecting-variant states are unchanged (visible in the result record, which
keeps the state's `expect_segment` and `expect_playlist`). -/
theorem C8_iframe_amended (s : PState) (value u : String) (si : IFrameStreamInfo)
    (hu : dget (parse_attributes value).1 "URI" = some u) (hne : u ≠ "")
    (hsi : create_iframe_stream_info
        (match s.streaminf with
         | some m => if m.isEmpty then (parse_attributes value).1 else m
         | none => (parse_attributes value).1) = .ok si) :
    parse_tag_ext_x_i_frame_stream_inf value s =
      .ok { s with
            streaminf := none
            warnings := s.warnings ++ (parse_attributes value).2
            m3u8 := { s.m3u8 with playlists := s.m3u8.playlists ++
              [{ uri := resolveURI s.m3u8.uri u
                 stream_info := .iframe si
                 media := []
                 is_iframe := true }] } } := by
  unfold parse_tag_ext_x_i_frame_stream_inf
  simp only [hu, Option.getD_some]
  rw [if_neg hne]
  rw [hsi, exceptOkBind]
  rfl

theorem C8_iframe_amended_witness :
    parse_tag_ext_x_i_frame_stream_inf "BANDWIDTH=300,URI=\"y\"" (initPState none) =
      .ok { initPState none with
            streaminf := none
            warnings := [] ++ (parse_attributes "BANDWIDTH=300,URI=\"y\"").2
            m3u8 := { (initPState none).m3u8 with playlists := [] ++
              [{ uri := resolveURI none "y"
                 stream_info := .iframe
                   { bandwidth := 300, program_id := none, codecs := [""],
                     resolution := none, video := none }
                 media := []
                 is_iframe := true }] } } :=
  C8_iframe_amended (initPState none) "BANDWIDTH=300,URI=\"y\""
    "y" { bandwidth := 300, program_id := none, codecs := [""],
          resolution := none, video := none } rfl (by decide) rfl

/-- C6: the association pass gives every variant, for each of its non-empty
audio, video and subtitles group references in that order, exactly the
document's media entries whose group id equals the reference, in declaration
order, with no deduplication; in particular one variant referencing audio
group `"aac"` against two `"aac"` entries and one `"mp3"` entry gains exactly
the two `"aac"` entries in declaration order. -/
theorem C6_association :
    (∀ m : M3U8, (associate m).playlists = m.playlists.map (fun p =>
      { p with media :=
          (p.media
            ++ (match getattrMedia p.stream_info "audio" with
                | some g => if g ≠ "" then m.media.filter (fun md => md.group_id == g) else []
                | none => []))
            ++ (match getattrMedia p.stream_info "video" with
                | some g => if g ≠ "" then m.media.filter (fun md => md.group_id == g) else []
                | none => [])
            ++ (match getattrMedia p.stream_info "subtitles" with
                | some g => if g ≠ "" then m.media.filter (fun md => md.group_id == g) else []
                | none => []) })) ∧
    (parse none ["#EXTM3U",
      "#EXT-X-MEDIA:TYPE=AUDIO,GROUP-ID=\"aac\",NAME=\"a1\"",
      "#EXT-X-MEDIA:TYPE=AUDIO,GROUP-ID=\"aac\",NAME=\"a2\"",
      "#EXT-X-MEDIA:TYPE=AUDIO,GROUP-ID=\"mp3\",NAME=\"b1\"",
      "#EXT-X-STREAM-INF:BANDWIDTH=128,AUDIO=\"aac\"",
      "v.m3u8"]).map (fun m => m.playlists.map (fun p => p.media.map Media.name)) =
      .ok [["a1", "a2"]] := by
  constructor
  · intro m
    unfold associate assocMedia
    simp only [List.map_inj_left, List.foldl_cons, List.foldl_nil]
    intro p _
    rcases ha : getattrMedia p.stream_info "audio" with _ | ga <;>
      rcases hv : getattrMedia p.stream_info "video" with _ | gv <;>
      rcases hs2 : getattrMedia p.stream_info "subtitles" with _ | gs <;>
      simp only [ha, hv, hs2] <;>
      (try split_ifs) <;>
      simp
  · rfl

theorem C7_directive_dispatch_witness :
    parse_line (initPState none) "#" = .ok (initPState none) ∧
    parse_line (initPState none) "#EXT-X-FOO:1" = .ok (initPState none) ∧
    parse_line (initPState none) "#EXT-X-ENDLIST" =
      parse_tag_ext_x_endlist "" (initPState none) :=
  ⟨(C7_directive_dispatch (initPState none) "#" rfl).1 rfl,
   (C7_directive_dispatch (initPState none) "#EXT-X-FOO:1" rfl).2.1 "EXT-X-FOO" "1" rfl rfl,
   (C7_directive_dispatch (initPState none) "#EXT-X-ENDLIST" rfl).2.2 "EXT-X-ENDLIST" ""
     "EXT-X-ENDLIST" parse_tag_ext_x_endlist rfl rfl⟩

end HLS
